import Mathlib

/-!
Verification development for the cod-asset-importer repository.

This file gives a shallow embedding, in Lean 4, of the parts of the
repository's Python source that the specification's claims are about:

* `src/utils/file_io.py` — the typed binary reader (`read_fmt`, the typed
  wrappers `read_char` … `read_double`, and `read_nullstr`);
* `src/addon/importer.py` — the consumer-side import routines
  (`import_ibsp` / `import_xmodel` triangle consumption, the skeleton
  branch of `import_xmodel`, `_import_texture`, and the three
  `_import_material_*` entry points);
* `src/addon/operators.py` — the `D3DBSPImporter.execute` operator body.

Python file objects are modelled by an explicit `ByteCursor` (buffer plus
read offset); Python exceptions are modelled by explicit error values;
the `read_nullstr` `while` loop is modelled with explicit fuel so that its
(non-)termination can be reasoned about.  The asset-decoder classes
(`ibsp_asset`, `xmodel_asset`, `texture_asset.IWi`, …) are not part of the
source tree under verification; where a claim depends on them, their load
results are supplied as environment data and any behaviour taken from the
specification is marked `Modelled from the spec:` in its doc comment.
-/

namespace CodAssetImporter

/-- A byte value (0–255). -/
abbrev Byte := Nat

/-- A Python binary file object opened for reading: the underlying byte
buffer together with the current read offset. -/
structure ByteCursor where
  data : List Byte
  pos : Nat
deriving DecidableEq, Repr

/-- Python `file.read(n)`: returns up to `n` bytes starting at the current
offset and advances the offset by the number of bytes actually read (a
short read near the end of the file returns fewer bytes — possibly none —
and still advances the offset past them). -/
def ByteCursor.read (c : ByteCursor) (n : Nat) : List Byte × ByteCursor :=
  let chunk := (c.data.drop c.pos).take n
  (chunk, { c with pos := c.pos + chunk.length })

/-- The format characters of `FMT_CHARACTER_CONSTANTS` in
`src/utils/file_io.py` (the `struct` module's type characters). -/
inductive FmtChar
  | CHAR                 -- 'c'
  | SIGNED_CHAR          -- 'b'
  | UNSIGNED_CHAR        -- 'B'
  | SHORT                -- 'h'
  | UNSIGNED_SHORT       -- 'H'
  | INTEGER              -- 'i'
  | UNSIGNED_INTEGER     -- 'I'
  | LONG                 -- 'l'
  | UNSIGNED_LONG        -- 'L'
  | LONG_LONG            -- 'q'
  | UNSIGNED_LONG_LONG   -- 'Q'
  | FLOAT                -- 'f'
  | DOUBLE               -- 'd'
deriving DecidableEq, Repr

/-- `struct.calcsize` of a single format character under the `'<'`
(little-endian, standard size, no padding) prefix. -/
def FmtChar.size : FmtChar → Nat
  | .CHAR => 1
  | .SIGNED_CHAR => 1
  | .UNSIGNED_CHAR => 1
  | .SHORT => 2
  | .UNSIGNED_SHORT => 2
  | .INTEGER => 4
  | .UNSIGNED_INTEGER => 4
  | .LONG => 4
  | .UNSIGNED_LONG => 4
  | .LONG_LONG => 8
  | .UNSIGNED_LONG_LONG => 8
  | .FLOAT => 4
  | .DOUBLE => 8

/-- A `struct` format string of the shape used by the reader: a byte-order
mark followed by a sequence of type characters (a repeat count such as
`"3i"` denotes the same format as `"iii"`). -/
abbrev FmtStr := List FmtChar

/-- `struct.calcsize` of a whole format string under `'<'`/`'>'`
(standard sizes, no padding). -/
def calcsize (fmt : FmtStr) : Nat := (fmt.map FmtChar.size).sum

/-- The `struct` byte-order prefix characters in use: `'<'` or `'>'`. -/
inductive ByteOrder
  | little   -- '<'
  | big      -- '>'
deriving DecidableEq, Repr

/-- The unsigned integer denoted by a byte sequence read little-endian
(first byte least significant). -/
def leValue (bs : List Byte) : Nat := bs.foldr (fun b acc => b + 256 * acc) 0

/-- The unsigned integer denoted by a byte sequence under a byte order. -/
def orderValue (o : ByteOrder) (bs : List Byte) : Nat :=
  match o with
  | .little => leValue bs
  | .big => leValue bs.reverse

/-- Two's-complement reading of a `w`-byte unsigned value. -/
def toSigned (w : Nat) (n : Nat) : Int :=
  if n < 2 ^ (8 * w - 1) then (n : Int) else (n : Int) - 2 ^ (8 * w)

/-- A Python `float` as produced by `struct.unpack`: an exact IEEE-754
value (finite values are dyadic rationals). -/
inductive PyFloat
  | finite (q : ℚ)
  | inf (negative : Bool)
  | nan
deriving DecidableEq, Repr

/-- Decode an IEEE-754 binary floating point value from its unsigned bit
pattern, given the exponent width, mantissa width and exponent bias. -/
def decodeIeee (ebits mbits bias : Nat) (bits : Nat) : PyFloat :=
  let sign := bits / 2 ^ (ebits + mbits) % 2
  let e := bits / 2 ^ mbits % 2 ^ ebits
  let m := bits % 2 ^ mbits
  let signFactor : ℚ := if sign = 1 then -1 else 1
  if e = 2 ^ ebits - 1 then
    if m = 0 then .inf (sign = 1) else .nan
  else if e = 0 then
    .finite (signFactor * (m : ℚ) * (2 : ℚ) ^ ((1 : ℤ) - bias - mbits))
  else
    .finite (signFactor * ((2 ^ mbits + m : ℕ) : ℚ) * (2 : ℚ) ^ ((e : ℤ) - bias - mbits))

/-- A value produced by `struct.unpack`: the `'c'` character format yields
a one-byte `bytes` object, the integer formats yield Python ints, and the
`'f'`/`'d'` formats yield Python floats. -/
inductive PyValue
  | bytes1 (b : Byte)
  | int (z : Int)
  | float (f : PyFloat)
deriving DecidableEq, Repr

/-- Decode one format character from its (exactly `tc.size`-byte) chunk
under the given byte order, as `struct.unpack` does. -/
def decodeFmtChar (o : ByteOrder) (tc : FmtChar) (bs : List Byte) : PyValue :=
  match tc with
  | .CHAR => .bytes1 (bs.headD 0)
  | .SIGNED_CHAR => .int (toSigned 1 (orderValue o bs))
  | .UNSIGNED_CHAR => .int (orderValue o bs)
  | .SHORT => .int (toSigned 2 (orderValue o bs))
  | .UNSIGNED_SHORT => .int (orderValue o bs)
  | .INTEGER => .int (toSigned 4 (orderValue o bs))
  | .UNSIGNED_INTEGER => .int (orderValue o bs)
  | .LONG => .int (toSigned 4 (orderValue o bs))
  | .UNSIGNED_LONG => .int (orderValue o bs)
  | .LONG_LONG => .int (toSigned 8 (orderValue o bs))
  | .UNSIGNED_LONG_LONG => .int (orderValue o bs)
  | .FLOAT => .float (decodeIeee 8 23 127 (orderValue o bs))
  | .DOUBLE => .float (decodeIeee 11 52 1023 (orderValue o bs))

/-- `struct.unpack` over a byte buffer that has exactly `calcsize fmt`
bytes: decode the format characters left to right, each consuming its own
size in bytes. -/
def structUnpack (o : ByteOrder) : FmtStr → List Byte → List PyValue
  | [], _ => []
  | tc :: rest, bs => decodeFmtChar o tc (bs.take tc.size) :: structUnpack o rest (bs.drop tc.size)

/-- The Python exceptions the modelled code can raise. `structError` is
the `struct.error` raised by `struct.unpack` when the buffer is shorter
than the format requires — the reader's `UnexpectedEndOfData` condition. -/
inductive PyError
  | structError
  | unicodeDecodeError
  | attributeError (nm : String)
  | indexError
  | valueError
deriving DecidableEq, Repr

/-- The value `read_fmt` returns on success: a single value when the
format string is a bare character of `FMT_CHARACTER_CONSTANTS` (the code
then returns `data_unpacked[0]`), and the whole unpacked tuple
otherwise. -/
inductive FmtResult
  | one (v : PyValue)
  | many (vs : List PyValue)
deriving DecidableEq, Repr

/-- The values of a `FmtResult` as a list. -/
def FmtResult.toList : FmtResult → List PyValue
  | .one v => [v]
  | .many vs => vs

/-- `file_io.read_fmt` (with `namedtuple = None`, as every caller in the
repository passes it): build the format from the byte-order mark and the
format string, `file.read` its `calcsize`, and `struct.unpack` the raw
bytes.  `struct.unpack` raises `struct.error` when the short read returned
fewer bytes than the format requires; the advanced cursor is returned
alongside either outcome because the Python file object has already been
advanced when the exception propagates.  A format string that is a single
format character is a member of `FMT_CHARACTER_CONSTANTS`, so the code
returns `data_unpacked[0]` for it. -/
def read_fmt (file : ByteCursor) (fmt_str : FmtStr) (fmt_byte_order : ByteOrder) :
    Except PyError FmtResult × ByteCursor :=
  let size := calcsize fmt_str
  let rd := file.read size
  let data_raw := rd.1
  let file' := rd.2
  if data_raw.length = size then
    let data_unpacked := structUnpack fmt_byte_order fmt_str data_raw
    if fmt_str.length = 1 then
      (.ok (.one (data_unpacked.headD (.int 0))), file')
    else
      (.ok (.many data_unpacked), file')
  else
    (.error .structError, file')

/-- `file_io.read_char`. -/
def read_char (file : ByteCursor) : Except PyError FmtResult × ByteCursor :=
  read_fmt file [.CHAR] .little

/-- `file_io.read_schar`. -/
def read_schar (file : ByteCursor) : Except PyError FmtResult × ByteCursor :=
  read_fmt file [.SIGNED_CHAR] .little

/-- `file_io.read_uchar`. -/
def read_uchar (file : ByteCursor) : Except PyError FmtResult × ByteCursor :=
  read_fmt file [.UNSIGNED_CHAR] .little

/-- `file_io.read_short`. -/
def read_short (file : ByteCursor) : Except PyError FmtResult × ByteCursor :=
  read_fmt file [.SHORT] .little

/-- `file_io.read_ushort`. -/
def read_ushort (file : ByteCursor) : Except PyError FmtResult × ByteCursor :=
  read_fmt file [.UNSIGNED_SHORT] .little

/-- `file_io.read_int`. -/
def read_int (file : ByteCursor) : Except PyError FmtResult × ByteCursor :=
  read_fmt file [.INTEGER] .little

/-- `file_io.read_uint`. -/
def read_uint (file : ByteCursor) : Except PyError FmtResult × ByteCursor :=
  read_fmt file [.UNSIGNED_INTEGER] .little

/-- `file_io.read_long`. -/
def read_long (file : ByteCursor) : Except PyError FmtResult × ByteCursor :=
  read_fmt file [.LONG] .little

/-- `file_io.read_ulong`. -/
def read_ulong (file : ByteCursor) : Except PyError FmtResult × ByteCursor :=
  read_fmt file [.UNSIGNED_LONG] .little

/-- `file_io.read_longlong`. -/
def read_longlong (file : ByteCursor) : Except PyError FmtResult × ByteCursor :=
  read_fmt file [.LONG_LONG] .little

/-- `file_io.read_ulonglong`. -/
def read_ulonglong (file : ByteCursor) : Except PyError FmtResult × ByteCursor :=
  read_fmt file [.UNSIGNED_LONG_LONG] .little

/-- `file_io.read_float`. -/
def read_float (file : ByteCursor) : Except PyError FmtResult × ByteCursor :=
  read_fmt file [.FLOAT] .little

/-- `file_io.read_double`. -/
def read_double (file : ByteCursor) : Except PyError FmtResult × ByteCursor :=
  read_fmt file [.DOUBLE] .little

/-- `bytes.rstrip(b'\x00')`: remove all trailing NUL bytes. -/
def rstripNull (bs : List Byte) : List Byte :=
  ((bs.reverse.dropWhile (fun b => b = 0))).reverse

/-- `bytes.decode('ascii')`: succeeds exactly when every byte is below
128, yielding the corresponding character string; otherwise Python raises
`UnicodeDecodeError`. -/
def asciiDecode (bs : List Byte) : Option String :=
  if bs.all (fun b => b < 128) then
    some (String.mk (bs.map Char.ofNat))
  else
    none

/-- The `while` loop of `file_io.read_nullstr`, with explicit fuel.  Each
iteration performs `character = file.read(1)` and `string += character`,
then re-tests `character != b'\x00'`.  At end of file `file.read(1)`
returns the empty bytes object, which never equals `b'\x00'`, so the loop
condition stays true.  `none` means the loop did not exit within `fuel`
iterations. -/
def read_nullstr_go : Nat → ByteCursor → List Byte → Option (List Byte × ByteCursor)
  | 0, _, _ => none
  | fuel + 1, file, string =>
    let rd := file.read 1
    let character := rd.1
    let file' := rd.2
    let string' := string ++ character
    if character = [0] then
      some (string', file')
    else
      read_nullstr_go fuel file' string'

/-- `file_io.read_nullstr`, with explicit fuel for its `while` loop:
accumulate bytes until a NUL byte is read, then strip the trailing NUL
bytes and decode the rest as ASCII.  `none` means the loop ran for `fuel`
iterations without terminating. -/
def read_nullstr (fuel : Nat) (file : ByteCursor) :
    Option (Except PyError String × ByteCursor) :=
  match read_nullstr_go fuel file [] with
  | none => none
  | some (string, file') =>
    match asciiDecode (rstripNull string) with
    | some s => some (.ok s, file')
    | none => some (.error .unicodeDecodeError, file')

/-! ## `src/addon/importer.py` — consumer-side import routines -/

/-- `os.path.join` of two components.  The separator character is
platform-dependent in Python; the joined strings are used by the modelled
code only as lookup keys into the environment, so a fixed `'/'` is
used. -/
def joinPath (a b : String) : String :=
  if a = "" then b else a ++ "/" ++ b

/-- Python `str.rfind` restated for a character predicate: the index of
the last character satisfying `p`, or `-1` when there is none. -/
def rfindIdx (cs : List Char) (p : Char → Bool) : Int :=
  match cs.reverse.findIdx? p with
  | none => -1
  | some j => (cs.length : Int) - 1 - j

/-- `os.path.splitext`: split off the extension at the last `'.'` that
lies after the last path separator, unless every character between that
separator and the dot is itself a dot (so that leading dots of the file
name, as in `".bashrc"`, never start an extension).  Both `'/'` and `'\\'`
are treated as separators; the names appearing in the theorems below
contain neither, where all platform conventions agree. -/
def splitext (s : String) : String × String :=
  let cs := s.data
  let sepIndex := rfindIdx cs (fun c => c = '/' || c = '\\')
  let dotIndex := rfindIdx cs (fun c => c = '.')
  if sepIndex < dotIndex then
    let start := (sepIndex + 1).toNat
    let dotN := dotIndex.toNat
    if ((cs.drop start).take (dotN - start)).any (fun c => c ≠ '.') then
      (String.mk (cs.take dotN), String.mk (cs.drop dotN))
    else
      (s, "")
  else
    (s, "")

/-- A Blender image datablock as far as the modelled code observes it:
dimensions and the flat float pixel buffer (`width * height * 4` floats,
row-major, RGBA). -/
structure BImage where
  width : Nat
  height : Nat
  pixels : List ℚ
deriving DecidableEq, Repr

/-- The result of `texture_asset.IWi().load`: dimensions and the flat
RGBA float buffer of the selected mip.

Modelled from the spec: the `texture_asset` module is not part of the
source tree under verification.  Per the spec's texture-decoder algorithm
the loaded container yields the top-resolution mip decompressed (or
copied, for the uncompressed layout) into a flat RGBA buffer; the
mandatory vertical flip is the step the consumer code in
`importer.py` performs afterwards, so `texture_data` here is the buffer
before orientation correction, whichever of the compressed or
uncompressed layout the container used. -/
structure IWiTexture where
  width : Nat
  height : Nat
  texture_data : List ℚ
deriving DecidableEq, Repr

/-- `numpy.flipud` on a buffer viewed with shape
`(height, rowLen)` and flattened back: the rows (each `rowLen` floats)
in reverse order.  The importer uses it with `rowLen = width * 4` after
reshaping to `(height, width, 4)`. -/
def flipud (height rowLen : Nat) (px : List ℚ) : List ℚ :=
  ((List.range height).reverse.map (fun r => (px.drop (r * rowLen)).take rowLen)).flatten

/-- An I/O action the modelled import routines can perform: loading or
decoding a file.  The traces record these so that "returns without
re-reading or re-decoding any file" is expressible. -/
inductive IOAction
  | loadDDS (texture_name : String)            -- bpy.data.images.load of the .dds
  | parseIWi (texture_name : String)           -- texture_asset.IWi().load of the .iwi
  | loadImage (path : String)                  -- bpy.data.images.load (v14 texture file)
  | loadMaterialFile (material_name : String)  -- material_asset.Material().load
deriving DecidableEq, Repr

/-- A texture binding of a decoded material: its role tag and texture
name (`material_asset` fields `type` and `name`). -/
structure MatTexture where
  type : String
  name : String
deriving DecidableEq, Repr

/-- A decoded material (`material_asset.Material` after `load`): name and
ordered texture bindings. -/
structure Material where
  name : String
  textures : List MatTexture
deriving DecidableEq, Repr

/-- The version tags of `xmodel_asset.VERSIONS` used for dispatch. -/
inductive GameVersion
  | COD1
  | COD2
  | COD4
deriving DecidableEq, Repr

/-- The environment the import routines run against: the current Blender
datablock registries and the outcomes of the file loads the routines may
attempt.  The asset-decoder classes are not part of the source tree, so
their load results are supplied here as data. -/
structure Env where
  images : List (String × BImage)
  materials : List String
  ddsResults : String → Option BImage
  iwiResults : String → Option IWiTexture
  imageFileResults : String → Option BImage
  materialFileResults : GameVersion → String → Option Material

/-- The result of `_import_texture`: the returned image datablock, the
`False` return, or an uncaught exception. -/
inductive TexResult
  | image (img : BImage)
  | retFalse
  | raised (e : PyError)
deriving DecidableEq, Repr

/-- `importer._import_texture`: return the already-materialized image
datablock if one exists under `texture_name`; otherwise try to load the
(possibly just-converted) `.dds`, and on failure fall back to parsing the
`.iwi`, reshaping the decoded buffer to `(height, width, 4)` (which
raises `ValueError` on a size mismatch, as the numpy shape assignment
does) and flipping it vertically exactly once with `numpy.flipud` before
assigning the pixels.  The second component traces the file loads
performed. -/
def _import_texture (env : Env) (texture_name : String) :
    TexResult × List IOAction :=
  match env.images.lookup texture_name with
  | some texture_image => (.image texture_image, [])
  | none =>
    match env.ddsResults texture_name with
    | some texture_image => (.image texture_image, [.loadDDS texture_name])
    | none =>
      match env.iwiResults texture_name with
      | none => (.retFalse, [.loadDDS texture_name, .parseIWi texture_name])
      | some TEXTURE =>
        if TEXTURE.texture_data.length = TEXTURE.height * (TEXTURE.width * 4) then
          (.image ⟨TEXTURE.width, TEXTURE.height,
                   flipud TEXTURE.height (TEXTURE.width * 4) TEXTURE.texture_data⟩,
           [.loadDDS texture_name, .parseIWi texture_name])
        else
          (.raised .valueError, [.loadDDS texture_name, .parseIWi texture_name])

/-- Modelled from the spec: the external converter tool
(`bin/iwi2dds.exe`, not part of the source tree) transcodes a
compressed-texture container into a directly loadable `.dds`.  Per the
spec the pre-converted container is "used verbatim" and the in-process
decode path "must independently produce a pixel-identical result", i.e.
the converter's output is the decoded top mip with the mandatory vertical
flip already applied once. -/
def iwi2dds (t : IWiTexture) : BImage :=
  ⟨t.width, t.height, flipud t.height (t.width * 4) t.texture_data⟩

/-- `importer._import_material_v14`: join the asset path with the texture
file name, strip the extension to obtain the material name, and return
`True` at once when a material of that name already exists; otherwise try
to load the texture image and build the node graph (returning `True`), or
return `False` when anything in the `try` block raises (the image load is
the only fallible step observable here). -/
def _import_material_v14 (env : Env) (assetpath material_name : String) :
    Bool × List IOAction :=
  let texture_file := joinPath assetpath material_name
  let name := (splitext material_name).1
  if name ∈ env.materials then
    (true, [])
  else
    match env.imageFileResults texture_file with
    | some _ => (true, [.loadImage texture_file])
    | none => (false, [.loadImage texture_file])

/-- `importer._import_material_v20`: return `True` at once when a
material named `material_name` already exists; otherwise decode the
material file (returning `False` on failure) and import each of its
textures, building the node graph, then return `True`.  The per-texture
node wiring performs no further file I/O; the `_import_texture` calls
(and their traces) are what it contributes here. -/
def _import_material_v20 (env : Env) (_assetpath material_name : String) :
    Bool × List IOAction :=
  if material_name ∈ env.materials then
    (true, [])
  else
    match env.materialFileResults .COD2 material_name with
    | none => (false, [.loadMaterialFile material_name])
    | some MATERIAL =>
      (true, .loadMaterialFile material_name ::
        (MATERIAL.textures.map (fun t => (_import_texture env t.name).2)).flatten)

/-- `importer._import_material_v25`: identical to the v20 routine except
that the material file is decoded with the CoD4 version tag. -/
def _import_material_v25 (env : Env) (_assetpath material_name : String) :
    Bool × List IOAction :=
  if material_name ∈ env.materials then
    (true, [])
  else
    match env.materialFileResults .COD4 material_name with
    | none => (false, [.loadMaterialFile material_name])
    | some MATERIAL =>
      (true, .loadMaterialFile material_name ::
        (MATERIAL.textures.map (fun t => (_import_texture env t.name).2)).flatten)

/-- The triangle-to-vertex consumption step of `import_ibsp`
(importer.py lines 97–101): for a stored index triple `triangle`,
`vertex1 = surface.vertices[triangle[0]]`,
`vertex2 = surface.vertices[triangle[2]]`,
`vertex3 = surface.vertices[triangle[1]]`; an out-of-range index raises
`IndexError` (`none`). -/
def import_ibsp_triangle_vertices {V : Type} (vertices : List V)
    (triangle : Nat × Nat × Nat) : Option (V × V × V) :=
  match vertices.get? triangle.1, vertices.get? triangle.2.2,
        vertices.get? triangle.2.1 with
  | some vertex1, some vertex2, some vertex3 => some (vertex1, vertex2, vertex3)
  | _, _, _ => none

/-- The triangle-to-vertex consumption step of `import_xmodel`
(importer.py lines 249–253), textually identical to the map-surface
one. -/
def import_xmodel_triangle_vertices {V : Type} (vertices : List V)
    (triangle : Nat × Nat × Nat) : Option (V × V × V) :=
  match vertices.get? triangle.1, vertices.get? triangle.2.2,
        vertices.get? triangle.2.1 with
  | some vertex1, some vertex2, some vertex3 => some (vertex1, vertex2, vertex3)
  | _, _, _ => none

/-- One LOD entry of a decoded model (`xmodel_asset` data). -/
structure Lod where
  name : String
  materials : List String
deriving DecidableEq, Repr

/-- A decoded model index (`xmodel_asset.XModel` after `load`). -/
structure XModelAsset where
  name : String
  lods : List Lod
deriving DecidableEq, Repr

/-- A decoded bone (`xmodelpart_asset` data): name and parent index
(−1 for the root). -/
structure Bone where
  name : String
  parent : Int
deriving DecidableEq, Repr

/-- The load outcomes `import_xmodel` depends on.  The asset-decoder
classes are not part of the source tree; their results are environment
data: `none` models a load that returned `False`. -/
structure XModelEnv where
  xmodelResult : Option XModelAsset
  xmodelpartResult : Option (List Bone)
  xmodelsurfResult : Option Nat
deriving Repr

/-- The return value of `import_xmodel`: the root null object (by name),
`False`, or an uncaught exception. -/
inductive XModelResult
  | success (root : String)
  | retFalse
  | raised (e : PyError)
deriving DecidableEq, Repr

/-- What `import_xmodel` observably did: its return value, the error
messages it logged itself, whether an armature/skeleton object was
created, and for each created mesh object the name of the object it was
parented to. -/
structure XModelOutcome where
  result : XModelResult
  error_logs : List String
  armatureCreated : Bool
  meshParents : List String
deriving DecidableEq, Repr

/-- `importer.import_xmodel`, restricted to the observables of
`XModelOutcome`.  Load the model index (returning `False` with an error
log on failure); take `lods[0]` (raising `IndexError` when empty); load
the skeleton, which on failure only logs and leaves `XMODELPART = None`;
load the surfaces (returning `False` with an error log on failure).  The
mesh loop evaluates `lod0.materials[i]` for every surface index `i`
(importer.py lines 230–233), so when the LOD lists fewer materials than
there are surfaces an `IndexError` propagates out of the loop before any
skeleton creation or mesh parenting happens.  Otherwise a skeleton object
is created only when `import_skeleton` holds, the skeleton loaded, and it
has more than one bone (line 320); mesh objects are parented to the
skeleton when one was created and directly to the model's root null
object otherwise (lines 377–389), and the root object is returned.  The
material imports (whose return values the code discards) and the
mesh/armature geometry construction do not affect these observables and
are elided; the skeleton and surface file paths include subdirectory
constants of the absent asset modules, elided from the logged messages'
path component. -/
def import_xmodel (env : XModelEnv) (assetpath filepath : String)
    (import_skeleton : Bool) : XModelOutcome :=
  match env.xmodelResult with
  | none => ⟨.retFalse, ["Error loading xmodel: " ++ filepath], false, []⟩
  | some XMODEL =>
    match XMODEL.lods.get? 0 with
    | none => ⟨.raised .indexError, [], false, []⟩
    | some lod0 =>
      let partLog :=
        match env.xmodelpartResult with
        | none => ["Error loading xmodelpart: " ++ joinPath assetpath lod0.name]
        | some _ => []
      match env.xmodelsurfResult with
      | none =>
        ⟨.retFalse,
         partLog ++ ["Error loading xmodelsurf: " ++ joinPath assetpath lod0.name],
         false, []⟩
      | some surfaceCount =>
        if surfaceCount ≤ lod0.materials.length then
          let skeletonCreated :=
            import_skeleton && env.xmodelpartResult.isSome &&
              decide (1 < (env.xmodelpartResult.getD []).length)
          let parentName :=
            if skeletonCreated then lod0.name ++ "_skeleton" else XMODEL.name
          ⟨.success XMODEL.name, partLog, skeletonCreated,
           List.replicate surfaceCount parentName⟩
        else
          ⟨.raised .indexError, partLog, false, []⟩

/-! ## `src/addon/operators.py` -/

/-- The module-level names the `importer` module defines (the top-level
functions of `src/addon/importer.py`); attribute access on the module
resolves against these. -/
def importer_module_attrs : List String :=
  ["import_ibsp", "import_xmodel", "_import_material_v14",
   "_import_material_v20", "_import_material_v25", "_import_texture"]

/-- `operators.D3DBSPImporter.execute`: after the pure asset-path
computation, the body evaluates the attribute access
`importer.import_d3dbsp` before any call can happen; when the module does
not define that attribute, `AttributeError` propagates and the operator
never reaches a decode, otherwise it would invoke the map import and
return the set containing `'FINISHED'`. -/
def D3DBSPImporter_execute (_filepath : String) : Except PyError (List String) :=
  if "import_d3dbsp" ∈ importer_module_attrs then
    .ok ["FINISHED"]
  else
    .error (.attributeError "import_d3dbsp")

/-! ## Theorems -/

/-- C9: executing the map-import operator fails for every input file path
with an attribute-lookup error on `import_d3dbsp`, which the importer
module does not define, before any decoding can happen. -/
theorem d3dbsp_importer_execute_attribute_error (filepath : String) :
    D3DBSPImporter_execute filepath = .error (.attributeError "import_d3dbsp") := rfl

/-- C5: for a stored index triple `(a, b, c)` both the map-surface and the
model-surface import consume the vertices in the order `(a, c, b)` — the
second and third stored indices swapped exactly once; in particular the
stored triple `(0, 1, 2)` yields exactly `(0, 2, 1)`, which differs from
the stored order (so the swap is not applied twice). -/
theorem triangle_indices_swapped_once (V : Type) (vertices : List V) (a b c : Nat)
    (ha : a < vertices.length) (hb : b < vertices.length) (hc : c < vertices.length) :
    import_ibsp_triangle_vertices vertices (a, b, c) =
      some (vertices.get ⟨a, ha⟩, vertices.get ⟨c, hc⟩, vertices.get ⟨b, hb⟩) ∧
    import_xmodel_triangle_vertices vertices (a, b, c) =
      some (vertices.get ⟨a, ha⟩, vertices.get ⟨c, hc⟩, vertices.get ⟨b, hb⟩) ∧
    import_ibsp_triangle_vertices [0, 1, 2] (0, 1, 2) = some ((0 : Nat), 2, 1) ∧
    import_xmodel_triangle_vertices [0, 1, 2] (0, 1, 2) = some ((0 : Nat), 2, 1) ∧
    some ((0 : Nat), 2, 1) ≠ some ((0 : Nat), 1, 2) := by
  refine ⟨?_, ?_, by decide, by decide, by decide⟩ <;>
    simp [import_ibsp_triangle_vertices, import_xmodel_triangle_vertices,
      List.get?_eq_get, ha, hb, hc]

/-- C5 witness: the theorem applied at a concrete vertex list and triple. -/
theorem triangle_indices_swapped_once_witness :
    import_ibsp_triangle_vertices [10, 20, 30] (0, 1, 2) = some ((10 : Nat), 30, 20) ∧
    import_xmodel_triangle_vertices [10, 20, 30] (0, 1, 2) = some ((10 : Nat), 30, 20) := by
  have h := triangle_indices_swapped_once Nat [10, 20, 30] 0 1 2
    (by decide) (by decide) (by decide)
  exact ⟨h.1.trans (by decide), h.2.1.trans (by decide)⟩

/-- C8: when the skeleton decodes to exactly one bone (root only) and the
model is otherwise well-formed (its LOD lists at least as many materials
as there are surfaces, so the mesh loop's `lod0.materials[i]` accesses
stay in range), the model import still succeeds — the skeleton-creation
condition (`len(XMODELPART.bones) > 1`) is false, so no armature is
created, every mesh object is parented to the model's root null object,
and no error is logged. -/
theorem single_bone_skeleton_import
    (env : XModelEnv) (assetpath filepath : String) (import_skeleton : Bool)
    (XMODEL : XModelAsset) (lod0 : Lod) (b : Bone) (n : Nat)
    (hx : env.xmodelResult = some XMODEL)
    (hl : XMODEL.lods.get? 0 = some lod0)
    (hp : env.xmodelpartResult = some [b])
    (hs : env.xmodelsurfResult = some n)
    (hnm : n ≤ lod0.materials.length) :
    import_xmodel env assetpath filepath import_skeleton =
      ⟨.success XMODEL.name, [], false, List.replicate n XMODEL.name⟩ := by
  simp only [List.get?_eq_getElem?] at hl
  simp [import_xmodel, hx, hl, hp, hs, hnm]

/-- C8 witness: the theorem applied at a concrete single-bone
environment with two surfaces and two LOD materials. -/
theorem single_bone_skeleton_import_witness :
    import_xmodel
        ⟨some ⟨"mdl", [⟨"lod0", ["m1", "m2"]⟩]⟩, some [⟨"tag_origin", -1⟩], some 2⟩
        "assets" "assets/xmodel/mdl" true =
      ⟨.success "mdl", [], false, ["mdl", "mdl"]⟩ := by
  have h := single_bone_skeleton_import
    ⟨some ⟨"mdl", [⟨"lod0", ["m1", "m2"]⟩]⟩, some [⟨"tag_origin", -1⟩], some 2⟩
    "assets" "assets/xmodel/mdl" true ⟨"mdl", [⟨"lod0", ["m1", "m2"]⟩]⟩
    ⟨"lod0", ["m1", "m2"]⟩ ⟨"tag_origin", -1⟩ 2 rfl rfl rfl rfl (by decide)
  exact h.trans (by decide)

/-- C1 counterexample: reading a 4-byte int from a 2-byte buffer fails
with the end-of-data condition, but the cursor offset advances from 0 to
2 — it is not left unchanged as the claim states. -/
theorem read_fmt_cursor_advance_cex :
    (read_int ⟨[7, 7], 0⟩).1 = .error .structError ∧
    (read_int ⟨[7, 7], 0⟩).2.pos = 2 ∧ (2 : Nat) ≠ 0 := by
  refine ⟨rfl, rfl, by decide⟩

/-- C1 amended: when fewer bytes remain than the format requires, the
primitive read fails with the end-of-data condition (`struct.error`), no
partial value and no zero-fill is returned, and the offset never exceeds
the buffer length — but the cursor advances over the bytes consumed by
the short read, ending at the buffer length. -/
theorem read_fmt_insufficient_bytes_fails_at_end
    (file : ByteCursor) (fmt : FmtStr) (o : ByteOrder)
    (hpos : file.pos ≤ file.data.length)
    (hshort : file.data.length - file.pos < calcsize fmt) :
    read_fmt file fmt o = (.error .structError, ⟨file.data, file.data.length⟩) := by
  have hlen : ((file.data.drop file.pos).take (calcsize fmt)).length =
      file.data.length - file.pos := by
    simp [List.length_take, List.length_drop]
    omega
  have hne : file.data.length - file.pos ≠ calcsize fmt := by omega
  simp only [read_fmt, ByteCursor.read, hlen]
  rw [if_neg hne]
  have : file.pos + (file.data.length - file.pos) = file.data.length := by omega
  rw [this]

/-- C1 amended witness: the theorem applied to an 8-byte read from a
3-byte buffer. -/
theorem read_fmt_insufficient_bytes_fails_at_end_witness :
    read_fmt ⟨[1, 2, 3], 0⟩ [.DOUBLE] .little =
      (.error .structError, ⟨[1, 2, 3], 3⟩) :=
  read_fmt_insufficient_bytes_fails_at_end ⟨[1, 2, 3], 0⟩ [.DOUBLE] .little
    (by decide) (by decide)

/-- When no NUL byte remains past the cursor, every iteration of the
`read_nullstr` loop reads either a non-NUL byte or (at end of file) the
empty bytes object, so the loop condition never becomes false: the loop
body exhausts any amount of fuel. -/
theorem read_nullstr_go_no_null (fuel : Nat) :
    ∀ (file : ByteCursor) (string : List Byte),
      (∀ b ∈ file.data.drop file.pos, b ≠ 0) →
      read_nullstr_go fuel file string = none := by
  induction fuel with
  | zero => intro file string _; rfl
  | succ n ih =>
    intro file string h
    have hchunk : (file.data.drop file.pos).take 1 ≠ [0] := by
      intro heq
      have h0 : (0 : Byte) ∈ (file.data.drop file.pos).take 1 := by
        rw [heq]; exact List.mem_singleton_self 0
      exact h 0 (List.mem_of_mem_take h0) rfl
    simp only [read_nullstr_go, ByteCursor.read]
    rw [if_neg hchunk]
    apply ih
    intro b hb
    apply h b
    rw [← List.drop_drop _ file.pos] at hb
    exact List.mem_of_mem_drop hb

/-- C2: on a buffer whose remaining bytes contain no NUL terminator,
`read_nullstr` never returns: at end of file `file.read(1)` yields the
empty bytes object, which differs from `b'\x00'`, so the loop runs
forever — the code diverges instead of failing with an end-of-data
condition. -/
theorem read_nullstr_missing_terminator_diverges (fuel : Nat) :
    read_nullstr fuel ⟨[97, 98], 0⟩ = none := by
  have h := read_nullstr_go_no_null fuel ⟨[97, 98], 0⟩ [] (by decide)
  simp [read_nullstr, h]

/-- Running the `read_nullstr` loop over a NUL-free prefix followed by a
NUL accumulates exactly the prefix and the terminator, and leaves the
cursor just past the terminator. -/
theorem read_nullstr_go_terminated (pre : List Byte) :
    ∀ (fuel : Nat) (file : ByteCursor) (string : List Byte) (rest : List Byte),
      file.data.drop file.pos = pre ++ 0 :: rest →
      (∀ b ∈ pre, b ≠ 0) →
      pre.length + 1 ≤ fuel →
      read_nullstr_go fuel file string =
        some (string ++ (pre ++ [0]), ⟨file.data, file.pos + (pre.length + 1)⟩) := by
  induction pre with
  | nil =>
    intro fuel file string rest hd hz hf
    match fuel, hf with
    | fuel + 1, _ =>
      simp only [read_nullstr_go, ByteCursor.read]
      rw [List.nil_append] at hd
      rw [hd]
      simp
  | cons hd0 pre ih =>
    intro fuel file string rest hsplit hz hf
    match fuel, hf with
    | fuel + 1, hf =>
      have hne : hd0 ≠ 0 := hz hd0 (List.mem_cons_self hd0 pre)
      have hchunk : (file.data.drop file.pos).take 1 = [hd0] := by
        rw [hsplit]; rfl
      have hnext : file.data.drop (file.pos + 1) = pre ++ 0 :: rest := by
        rw [← List.drop_drop 1 file.pos, hsplit]
        rfl
      have hrec := ih fuel ⟨file.data, file.pos + 1⟩ (string ++ [hd0]) rest hnext
        (fun b hb => hz b (List.mem_cons_of_mem hd0 hb))
        (by simp only [List.length_cons] at hf; omega)
      simp only [read_nullstr_go, ByteCursor.read, hchunk]
      rw [if_neg (by simpa using hne)]
      simp only [List.length_cons, List.length_nil, Nat.zero_add]
      rw [hrec]
      have harr : (string ++ [hd0]) ++ (pre ++ [0]) = string ++ (hd0 :: pre ++ [0]) := by
        simp
      have hp : file.pos + 1 + (pre.length + 1) = file.pos + ((hd0 :: pre).length + 1) := by
        simp only [List.length_cons]
        omega
      rw [harr, hp]
      simp [List.length_cons]

/-- Stripping trailing NUL bytes from a NUL-free prefix followed by one
NUL terminator gives back exactly the prefix. -/
theorem rstripNull_append_null (pre : List Byte) (h : ∀ b ∈ pre, b ≠ 0) :
    rstripNull (pre ++ [0]) = pre := by
  unfold rstripNull
  rw [List.reverse_append]
  show ((0 :: pre.reverse).dropWhile fun b => b = 0).reverse = pre
  rw [List.dropWhile_cons_of_pos (by simp)]
  cases hrev : pre.reverse with
  | nil =>
    have : pre = [] := by simpa using congrArg List.reverse hrev
    simp [this]
  | cons x t =>
    have hx : x ∈ pre := by
      have : x ∈ pre.reverse := by rw [hrev]; exact List.mem_cons_self x t
      simpa using this
    rw [List.dropWhile_cons_of_neg (by simpa using h x hx)]
    rw [← hrev, List.reverse_reverse]

/-- C4 counterexample: on a buffer whose remaining bytes do contain a NUL
terminator but whose pre-terminator byte is 200 (not ASCII), the
null-terminated read raises a decode error instead of returning the
bytes before the NUL. -/
theorem read_nullstr_nonascii_cex :
    read_nullstr 2 ⟨[200, 0], 0⟩ = some (.error .unicodeDecodeError, ⟨[200, 0], 2⟩) := by
  rfl

/-- C4 amended: for every buffer whose remaining bytes contain a NUL
terminator and whose pre-terminator bytes are all ASCII (below 128),
`read_nullstr` returns exactly those bytes decoded as ASCII text
(terminator excluded) and advances the cursor to just past the
terminator; when a pre-terminator byte is 128 or above the call instead
fails with a `UnicodeDecodeError`. -/
theorem read_nullstr_terminated_ascii
    (file : ByteCursor) (pre rest : List Byte) (fuel : Nat)
    (hsplit : file.data.drop file.pos = pre ++ 0 :: rest)
    (hz : ∀ b ∈ pre, b ≠ 0)
    (hascii : ∀ b ∈ pre, b < 128)
    (hfuel : pre.length + 1 ≤ fuel) :
    read_nullstr fuel file =
      some (.ok (String.mk (pre.map Char.ofNat)),
            ⟨file.data, file.pos + (pre.length + 1)⟩) := by
  have hgo := read_nullstr_go_terminated pre fuel file [] rest hsplit hz hfuel
  rw [List.nil_append] at hgo
  have hdecode : asciiDecode (rstripNull (pre ++ [0])) =
      some (String.mk (pre.map Char.ofNat)) := by
    rw [rstripNull_append_null pre hz]
    unfold asciiDecode
    rw [if_pos (by simpa [List.all_eq_true] using hascii)]
  simp [read_nullstr, hgo, hdecode]

/-- C4 amended witness: the theorem applied to the buffer `"ab\x00c"`. -/
theorem read_nullstr_terminated_ascii_witness :
    read_nullstr 4 ⟨[97, 98, 0, 99], 0⟩ = some (.ok "ab", ⟨[97, 98, 0, 99], 3⟩) := by
  have h := read_nullstr_terminated_ascii ⟨[97, 98, 0, 99], 0⟩ [97, 98] [99] 4
    (by decide) (by decide) (by decide) (by decide)
  exact h.trans (by rfl)

/-- `calcsize` of a `count`-fold repeated format character is
`count * size`. -/
theorem calcsize_replicate (count : Nat) (tc : FmtChar) :
    calcsize (List.replicate count tc) = count * tc.size := by
  simp [calcsize, List.map_replicate, List.sum_replicate, smul_eq_mul]

/-- `struct.unpack` of a `count`-fold repeated format character splits
the buffer into consecutive `size`-byte chunks and decodes each. -/
theorem structUnpack_replicate (o : ByteOrder) (tc : FmtChar) :
    ∀ (count : Nat) (bs : List Byte),
      structUnpack o (List.replicate count tc) bs =
        (List.range count).map
          (fun j => decodeFmtChar o tc ((bs.drop (j * tc.size)).take tc.size)) := by
  intro count
  induction count with
  | zero => intro bs; simp [structUnpack]
  | succ n ih =>
    intro bs
    rw [List.replicate_succ]
    rw [structUnpack]
    rw [ih (bs.drop tc.size)]
    rw [List.range_succ_eq_map]
    simp only [List.map_cons, List.map_map, Nat.zero_mul, List.drop_zero]
    congr 1
    apply List.map_congr_left
    intro j _
    simp only [Function.comp]
    rw [List.drop_drop]
    have harg : tc.size + j * tc.size = j.succ * tc.size := by
      simp only [Nat.succ_eq_add_one]
      ring
    simp only [Nat.mul_comm, harg]

/-- C3: reading a format of `count` repetitions of a fixed-width type
character from a buffer with enough remaining bytes succeeds, returns
exactly the next `count` values — each decoded by `decodeFmtChar` from
its own consecutive `size`-byte chunk, under the byte order passed per
call (the default of every wrapper being `'<'`, little-endian, under
which `decodeFmtChar` reads the first byte as least significant) — and
advances the cursor by exactly `count * size`. -/
theorem read_fmt_replicate
    (file : ByteCursor) (tc : FmtChar) (count : Nat) (o : ByteOrder)
    (h : file.pos + count * tc.size ≤ file.data.length) :
    (read_fmt file (List.replicate count tc) o).2 =
        ⟨file.data, file.pos + count * tc.size⟩ ∧
    (read_fmt file (List.replicate count tc) o).1.map FmtResult.toList =
      .ok ((List.range count).map
        (fun j => decodeFmtChar o tc
          ((file.data.drop (file.pos + j * tc.size)).take tc.size))) := by
  have hsize : calcsize (List.replicate count tc) = count * tc.size :=
    calcsize_replicate count tc
  have hlen : ((file.data.drop file.pos).take (calcsize (List.replicate count tc))).length =
      calcsize (List.replicate count tc) := by
    simp only [List.length_take, List.length_drop, hsize]
    omega
  have hchunks : ∀ j, j < count →
      (((file.data.drop file.pos).take (count * tc.size)).drop (j * tc.size)).take tc.size =
        (file.data.drop (file.pos + j * tc.size)).take tc.size := by
    intro j hj
    rw [List.drop_take]
    rw [List.take_take]
    have hmin : min tc.size (count * tc.size - j * tc.size) = tc.size := by
      have h1 : (j + 1) * tc.size ≤ count * tc.size :=
        Nat.mul_le_mul_right tc.size hj
      have h2 : (j + 1) * tc.size = j * tc.size + tc.size := by ring
      omega
    rw [hmin, List.drop_drop]
  have hunpack : structUnpack o (List.replicate count tc)
        ((file.data.drop file.pos).take (calcsize (List.replicate count tc))) =
      (List.range count).map
        (fun j => decodeFmtChar o tc
          ((file.data.drop (file.pos + j * tc.size)).take tc.size)) := by
    rw [structUnpack_replicate, hsize]
    apply List.map_congr_left
    intro j hj
    rw [hchunks j (List.mem_range.mp hj)]
  have hread1 : (file.read (calcsize (List.replicate count tc))).1 =
      (file.data.drop file.pos).take (calcsize (List.replicate count tc)) := rfl
  have hread2 : (file.read (calcsize (List.replicate count tc))).2 =
      (⟨file.data, file.pos + count * tc.size⟩ : ByteCursor) := by
    simp only [ByteCursor.read]
    rw [hlen, hsize]
  constructor
  · show (if ((file.data.drop file.pos).take (calcsize (List.replicate count tc))).length =
          calcsize (List.replicate count tc) then _ else _ : _ × ByteCursor).2 = _
    rw [if_pos hlen]
    by_cases hc : (List.replicate count tc).length = 1
    · rw [if_pos hc, hread2]
    · rw [if_neg hc, hread2]
  · show (if ((file.data.drop file.pos).take (calcsize (List.replicate count tc))).length =
          calcsize (List.replicate count tc) then _ else _ :
            Except PyError FmtResult × ByteCursor).1.map FmtResult.toList = _
    rw [if_pos hlen]
    by_cases hc : count = 1
    · subst hc
      rw [if_pos (by simp)]
      rw [hread1]
      simp only [Except.map, hunpack, FmtResult.toList]
      rw [show List.range 1 = [0] from rfl]
      simp only [List.map_cons, List.map_nil, List.headD_cons]
    · rw [if_neg (by simpa using hc)]
      rw [hread1]
      simp only [Except.map, hunpack, FmtResult.toList]

/-- C3 witness: the theorem applied to two little-endian 32-bit ints read
from an 8-byte buffer, checking the two decoded values and the advanced
cursor. -/
theorem read_fmt_replicate_witness :
    (read_fmt ⟨[1, 0, 0, 0, 2, 1, 0, 0], 0⟩ (List.replicate 2 .INTEGER) .little).2 =
        ⟨[1, 0, 0, 0, 2, 1, 0, 0], 8⟩ ∧
    (read_fmt ⟨[1, 0, 0, 0, 2, 1, 0, 0], 0⟩ (List.replicate 2 .INTEGER) .little).1.map
        FmtResult.toList = .ok [.int 1, .int 258] := by
  have h := read_fmt_replicate ⟨[1, 0, 0, 0, 2, 1, 0, 0], 0⟩ .INTEGER 2 .little (by decide)
  exact ⟨h.1, h.2.trans (by rfl)⟩

/-- C6: every decode path applies the vertical flip to the decoded pixel
buffer exactly once.  On the in-process path (`.dds` unavailable) the
importer parses the `.iwi` — whose loaded `texture_data` is the
decompressed (or, for the uncompressed layout, copied) buffer before
orientation correction — and applies `numpy.flipud` once; on the
pre-converted path the loaded container already carries the converter's
single flip and is used verbatim.  In both cases the resulting pixels are
one application of `flipud` to the decoded buffer — never zero, never
two. -/
theorem texture_flip_applied_once (t : IWiTexture) (texture_name : String)
    (hlen : t.texture_data.length = t.height * (t.width * 4)) :
    (_import_texture ⟨[], [], fun _ => some (iwi2dds t), fun _ => some t,
        fun _ => none, fun _ _ => none⟩ texture_name).1 =
      .image ⟨t.width, t.height, flipud t.height (t.width * 4) t.texture_data⟩ ∧
    (_import_texture ⟨[], [], fun _ => none, fun _ => some t,
        fun _ => none, fun _ _ => none⟩ texture_name).1 =
      .image ⟨t.width, t.height, flipud t.height (t.width * 4) t.texture_data⟩ := by
  constructor
  · rfl
  · show (if t.texture_data.length = t.height * (t.width * 4)
        then _ else _ : TexResult × List IOAction).1 = _
    rw [if_pos hlen]

/-- C6 witness: the theorem applied to a concrete 1×2 texture whose
decoded buffer is `[1,2,3,4,5,6,7,8]`; both paths produce the row-flipped
buffer `[5,6,7,8,1,2,3,4]`. -/
theorem texture_flip_applied_once_witness :
    (_import_texture ⟨[], [], fun _ => some (iwi2dds ⟨1, 2, [1, 2, 3, 4, 5, 6, 7, 8]⟩),
        fun _ => some ⟨1, 2, [1, 2, 3, 4, 5, 6, 7, 8]⟩,
        fun _ => none, fun _ _ => none⟩ "tex").1 =
      .image ⟨1, 2, [5, 6, 7, 8, 1, 2, 3, 4]⟩ ∧
    (_import_texture ⟨[], [], fun _ => none,
        fun _ => some ⟨1, 2, [1, 2, 3, 4, 5, 6, 7, 8]⟩,
        fun _ => none, fun _ _ => none⟩ "tex").1 =
      .image ⟨1, 2, [5, 6, 7, 8, 1, 2, 3, 4]⟩ := by
  have h := texture_flip_applied_once ⟨1, 2, [1, 2, 3, 4, 5, 6, 7, 8]⟩ "tex" (by decide)
  exact ⟨h.1.trans (by rfl), h.2.trans (by rfl)⟩

/-- C7: for the same compressed-texture source, the pixel buffer produced
by the in-process decode path (IWi parsing plus the importer's flip) is
identical to the one obtained through the external-converter
short-circuit path (loading the pre-converted container for that
source). -/
theorem texture_paths_pixel_identical (t : IWiTexture) (texture_name : String)
    (hlen : t.texture_data.length = t.height * (t.width * 4)) :
    (_import_texture ⟨[], [], fun _ => some (iwi2dds t), fun _ => some t,
        fun _ => none, fun _ _ => none⟩ texture_name).1 =
    (_import_texture ⟨[], [], fun _ => none, fun _ => some t,
        fun _ => none, fun _ _ => none⟩ texture_name).1 := by
  have h2 : (_import_texture ⟨[], [], fun _ => none, fun _ => some t,
      fun _ => none, fun _ _ => none⟩ texture_name).1 =
      .image ⟨t.width, t.height, flipud t.height (t.width * 4) t.texture_data⟩ := by
    show (if t.texture_data.length = t.height * (t.width * 4)
        then _ else _ : TexResult × List IOAction).1 = _
    rw [if_pos hlen]
  exact h2.symm

/-- C7 witness: the theorem applied to a concrete 2×1 texture. -/
theorem texture_paths_pixel_identical_witness :
    (_import_texture ⟨[], [], fun _ => some (iwi2dds ⟨2, 1, [1, 2, 3, 4, 5, 6, 7, 8]⟩),
        fun _ => some ⟨2, 1, [1, 2, 3, 4, 5, 6, 7, 8]⟩,
        fun _ => none, fun _ _ => none⟩ "tex2").1 =
    (_import_texture ⟨[], [], fun _ => none,
        fun _ => some ⟨2, 1, [1, 2, 3, 4, 5, 6, 7, 8]⟩,
        fun _ => none, fun _ _ => none⟩ "tex2").1 :=
  texture_paths_pixel_identical ⟨2, 1, [1, 2, 3, 4, 5, 6, 7, 8]⟩ "tex2" (by decide)

/-- C10 counterexample: the material name `"a.b"` is already
materialized, yet `_import_material_v14` called with exactly that name
does not return `True` immediately without file access — its early-return
check uses the extension-stripped name `"a"`, misses, and the call
attempts a texture-file load (and here fails). -/
theorem material_v14_dotted_name_cex :
    ("a.b" ∈ (["a.b"] : List String)) ∧
    _import_material_v14 ⟨[], ["a.b"], fun _ => none, fun _ => none,
        fun _ => none, fun _ _ => none⟩ "assets" "a.b" =
      (false, [.loadImage "assets/a.b"]) := by
  constructor
  · decide
  · rfl

/-- C10 amended: texture import and material import are idempotent at the
consumer level in the following form — `_import_texture` with an
already-materialized texture name returns the existing image datablock
performing no file access; `_import_material_v20` and
`_import_material_v25` with an already-existing material name return
`True` immediately without decoding; and `_import_material_v14` returns
`True` immediately without decoding exactly when the extension-stripped
form of its argument is already materialized (which is the argument
itself whenever it carries an extension-free dot-less stem, but not for a
materialized name containing a dot). -/
theorem import_early_return_idempotent
    (env : Env) (assetpath texture_name material_name : String) (img : BImage)
    (himg : env.images.lookup texture_name = some img)
    (hm14 : (splitext material_name).1 ∈ env.materials)
    (hm : material_name ∈ env.materials) :
    _import_texture env texture_name = (.image img, []) ∧
    _import_material_v14 env assetpath material_name = (true, []) ∧
    _import_material_v20 env assetpath material_name = (true, []) ∧
    _import_material_v25 env assetpath material_name = (true, []) := by
  refine ⟨?_, ?_, ?_, ?_⟩
  · simp [_import_texture, himg]
  · simp [_import_material_v14, hm14]
  · simp [_import_material_v20, hm]
  · simp [_import_material_v25, hm]

/-- C10 amended witness: the theorem applied to an environment holding an
image `"tex"` and a material `"mat"`. -/
theorem import_early_return_idempotent_witness :
    _import_texture ⟨[("tex", ⟨1, 1, [0, 0, 0, 0]⟩)], ["mat"], fun _ => none,
        fun _ => none, fun _ => none, fun _ _ => none⟩ "tex" =
      (.image ⟨1, 1, [0, 0, 0, 0]⟩, []) ∧
    _import_material_v14 ⟨[("tex", ⟨1, 1, [0, 0, 0, 0]⟩)], ["mat"], fun _ => none,
        fun _ => none, fun _ => none, fun _ _ => none⟩ "assets" "mat" = (true, []) ∧
    _import_material_v20 ⟨[("tex", ⟨1, 1, [0, 0, 0, 0]⟩)], ["mat"], fun _ => none,
        fun _ => none, fun _ => none, fun _ _ => none⟩ "assets" "mat" = (true, []) ∧
    _import_material_v25 ⟨[("tex", ⟨1, 1, [0, 0, 0, 0]⟩)], ["mat"], fun _ => none,
        fun _ => none, fun _ => none, fun _ _ => none⟩ "assets" "mat" = (true, []) :=
  import_early_return_idempotent
    ⟨[("tex", ⟨1, 1, [0, 0, 0, 0]⟩)], ["mat"], fun _ => none,
      fun _ => none, fun _ => none, fun _ _ => none⟩
    "assets" "tex" "mat" ⟨1, 1, [0, 0, 0, 0]⟩ (by rfl) (by decide) (by decide)

end CodAssetImporter
